import Mathlib

/-!
Shallow embedding of the FinTechProj risk-operations backend:
the risk aggregator (`backend.py`, `backend/routers/server.py`),
the guardrails and RBAC services (`backend/services`), and the
confirmation broker (`backend/routers/chat.py`, `chat_confirm.py`).
Machine floats are modelled as rationals; the in-memory pending
confirmation dict is an association list.
-/

namespace FinTech

/-! ### RBAC (`backend/services/rbac.py`) -/

/-- The mock user database of `rbac.py`: user id to role string.
(Book lists are irrelevant to the claims and omitted.) -/
def USER_DB : List (String × String) :=
  [("user1", "USER"), ("user2", "RISK"), ("admin1", "ADMIN"), ("demo", "RISK")]

/-- Model of `rbac.get_role`: look the user up in a database, defaulting to `"USER"`
for unknown users and validating the stored role string. The database is a
parameter because `rbac.add_user` may extend it. -/
def get_role (db : List (String × String)) (user_id : String) : String :=
  let role := (db.lookup user_id).getD "USER"
  if role = "USER" ∨ role = "RISK" ∨ role = "ADMIN" then role else "USER"

/-! ### Guardrails (`backend/services/guardrails.py`) -/

/-- The table `guardrails.PRIVILEGED_ACTIONS`: action name to allowed roles. -/
def PRIVILEGED_ACTIONS : List (String × List String) :=
  [("halt_trading", ["RISK", "ADMIN"]),
   ("modify_limits", ["RISK", "ADMIN"]),
   ("override_alert", ["RISK", "ADMIN"]),
   ("force_unwind", ["ADMIN"]),
   ("change_config", ["ADMIN"])]

/-- Model of `guardrails.can_execute`: non-privileged actions are allowed to all
users; privileged actions require the user's role to be in the allow list. -/
def can_execute (db : List (String × String)) (user_id action : String) : Bool :=
  match PRIVILEGED_ACTIONS.lookup action with
  | none => true
  | some allowed_roles => allowed_roles.contains (get_role db user_id)

/-- Tool arguments: a string-keyed dictionary of string values
(the shape the halt-trading guardrail inspects). -/
abbrev Args := List (String × String)

/-- Python `args.get(key)`: `none` when the key is absent. -/
def getArg (args : Args) (key : String) : Option String := args.lookup key

/-- Python truthiness of an optional string: absent and empty are falsy. -/
def truthy : Option String → Bool
  | none => false
  | some s => !(s == "")

/-- Python `str.strip()`: drop leading and trailing whitespace. -/
def strip (s : String) : String :=
  ⟨((s.data.dropWhile Char.isWhitespace).reverse.dropWhile Char.isWhitespace).reverse⟩

/-- Model of `guardrails.validate_halt_trading_args`: requires at least one of
desk/book/symbol to be truthy, and a truthy reason whose stripped length
is at least 10. -/
def validate_halt_trading_args (args : Args) : Bool × String :=
  if ¬ (truthy (getArg args "desk") || truthy (getArg args "book") ||
        truthy (getArg args "symbol")) then
    (false, "At least one of desk, book, or symbol must be specified")
  else if truthy (getArg args "reason") = false ∨
          (strip ((getArg args "reason").getD "")).length < 10 then
    (false, "Reason must be at least 10 characters")
  else
    (true, "")

/-! ### Pending confirmation store (`backend/routers/chat.py`) -/

/-- One entry of `_pending_confirmations`. -/
structure ConfirmData where
  user_id : String
  tool_name : String
  tool_args : Args
  created_at : ℚ
  expires_at : ℚ
deriving DecidableEq, Repr

/-- The `_pending_confirmations` dict, modelled as an association list;
lookup takes the first binding for a key. -/
abbrev Store := List (String × ConfirmData)

/-- Python `dict.get`. -/
def Store.lookupId (s : Store) (confirm_id : String) : Option ConfirmData :=
  List.lookup confirm_id s

/-- Python `del d[k]`: drop every binding of the key. -/
def Store.eraseId (s : Store) (confirm_id : String) : Store :=
  s.filter (fun p => p.1 != confirm_id)

/-- Python `d[k] = v` on a fresh key. -/
def Store.insertId (s : Store) (confirm_id : String) (d : ConfirmData) : Store :=
  (confirm_id, d) :: s

theorem Store.lookupId_eraseId (s : Store) (confirm_id : String) :
    (s.eraseId confirm_id).lookupId confirm_id = none := by
  induction s with
  | nil => rfl
  | cons hd tl ih =>
    simp only [Store.eraseId, List.filter_cons] at *
    by_cases h : hd.1 = confirm_id
    · have hbne : (hd.1 != confirm_id) = false := by simp [h]
      rw [hbne]
      exact ih
    · have hbne : (hd.1 != confirm_id) = true := by simp [h]
      rw [hbne]
      simp only [Store.lookupId, List.lookup] at *
      have hne : (confirm_id == hd.1) = false := by
        simp only [beq_eq_false_iff_ne, ne_eq]
        exact fun e => h e.symm
      rw [hne]
      exact ih

/-! ### Confirmation endpoint (`backend/routers/chat_confirm.py`) -/

/-- The body of a `/api/chat/confirm` request. -/
structure ConfirmRequest where
  user_id : String
  confirm_id : String
  answer : String
deriving DecidableEq, Repr

/-- The distinct terminations of `confirm_action`: the reachable
HTTPException branches (feature disabled 404, not-found 404, owner 403,
expired 410, RBAC 403) and the two ConfirmResponse successes. The
source's `except` branch (chat_confirm.py lines 94-103, a 500) has no
constructor: `_execute_tool` catches every exception and returns an
error dict instead of raising, so an executor failure takes the
`executed` path and the 500 branch is unreachable for it. -/
inductive ConfirmOutcome where
  | featureDisabled
  | notFound
  | forbiddenOwner
  | expired
  | cancelled
  | forbiddenRbac
  | executed (ticket_id : Option String) (message : String)
deriving DecidableEq, Repr

/-- Model of `chat._execute_tool` (chat.py lines 362-389): dispatch to
the named tool implementation, whose call may raise — the `Except.error`
case of `rawTool`, e.g. `oms.halt_trading` raising on an OMS outage —
but wrap the whole body in `try/except Exception`, returning the error
dict `{"error": str(e)}` rather than propagating. The wrapper is total:
`_execute_tool` itself never raises. -/
def execute_tool (rawTool : String → Args → Except String Args)
    (tool_name : String) (args : Args) : Args :=
  match rawTool tool_name args with
  | .ok result => result
  | .error e => [("error", e)]

/-- The request-independent inputs of `confirm_action`: the
`FEATURE_RISK_CHAT` flag, the wall clock read by `time.time()`, the RBAC
user database, and the raw tool implementations that `_execute_tool`
dispatches to (which may raise — modelled by `Except` — before
`_execute_tool` catches the exception). -/
structure ConfirmEnv where
  featureRiskChat : Bool
  now : ℚ
  roleDB : List (String × String)
  rawTool : String → Args → Except String Args

/-- What one `confirm_action` call produced: its outcome, the pending
store it leaves behind, and whether the downstream executor was invoked. -/
structure ConfirmResult where
  outcome : ConfirmOutcome
  store : Store
  execInvoked : Bool
deriving Repr

/-- Model of `chat_confirm.confirm_action`, branch for branch: feature
gate, lookup (404), ownership (403), expiry with purge (410), "no"
answer with purge (cancelled), RBAC re-check with purge (403), then the
`_execute_tool` call — which never raises — so the try block always
completes: the entry is purged and `executed` returned, with the
`ticket_id` and `message` taken from the result dict (both absent when
the raw tool failed and `_execute_tool` returned an error dict). The
source's `except` branch is unreachable on this path and not modelled. -/
def confirm_action (env : ConfirmEnv) (store : Store) (req : ConfirmRequest) :
    ConfirmResult :=
  if !env.featureRiskChat then
    ⟨.featureDisabled, store, false⟩
  else
    match store.lookupId req.confirm_id with
    | none => ⟨.notFound, store, false⟩
    | some confirm_data =>
      if confirm_data.user_id ≠ req.user_id then
        ⟨.forbiddenOwner, store, false⟩
      else if env.now > confirm_data.expires_at then
        ⟨.expired, store.eraseId req.confirm_id, false⟩
      else if req.answer = "no" then
        ⟨.cancelled, store.eraseId req.confirm_id, false⟩
      else if !can_execute env.roleDB req.user_id confirm_data.tool_name then
        ⟨.forbiddenRbac, store.eraseId req.confirm_id, false⟩
      else
        let result := execute_tool env.rawTool confirm_data.tool_name confirm_data.tool_args
        ⟨.executed (getArg result "ticket_id")
            ("Action executed successfully. " ++ (getArg result "message").getD ""),
          store.eraseId req.confirm_id, true⟩

/-! ### Chat endpoint tool-call loop (`backend/routers/chat.py`, `chat`) -/

/-- A structured tool invocation returned by the opaque language model. -/
structure ToolCall where
  name : String
  args : Args
deriving DecidableEq, Repr

/-- What the `chat` handler's tool-call loop produced: the `confirm_id`
of the response (if any) and the pending store it leaves behind. -/
structure ChatResult where
  confirm_id : Option String
  store : Store
deriving Repr

/-- The tool-call loop of `chat` (chat.py lines 427-512). For
`halt_trading`: RBAC denial returns early with no confirmation; a
guardrail failure returns early with no confirmation; otherwise a fresh
confirmation is inserted with a 300-second TTL and returned. Any other
tool executes immediately without touching the pending store (its
external effects are out of scope). The feature-flag gate and the
language-model call upstream of the loop never touch the store. -/
def chat_process (db : List (String × String)) (now : ℚ) (fresh_id : String)
    (user_id : String) (store : Store) : List ToolCall → ChatResult
  | [] => ⟨none, store⟩
  | tool_call :: rest =>
    if tool_call.name = "halt_trading" then
      if !can_execute db user_id "halt_trading" then
        ⟨none, store⟩
      else if !(validate_halt_trading_args tool_call.args).1 then
        ⟨none, store⟩
      else
        ⟨some fresh_id,
          store.insertId fresh_id
            ⟨user_id, tool_call.name, tool_call.args, now, now + 300⟩⟩
    else
      chat_process db now fresh_id user_id store rest

/-- A role of `"USER"` is not in `halt_trading`'s allow list. -/
lemma can_execute_halt_of_role_user (db : List (String × String))
    (user_id : String) (h : get_role db user_id = "USER") :
    can_execute db user_id "halt_trading" = false := by
  simp [can_execute, PRIVILEGED_ACTIONS, List.lookup, h]

/-! ### Claim theorems: confirmation broker -/

/-- C4: redeeming someone else's pending confirmation yields Forbidden,
and the entry stays in the store untouched for the rightful owner. -/
theorem confirm_wrong_user_forbidden (env : ConfirmEnv) (store : Store)
    (req : ConfirmRequest) (cd : ConfirmData)
    (hfeat : env.featureRiskChat = true)
    (hlook : store.lookupId req.confirm_id = some cd)
    (hneq : cd.user_id ≠ req.user_id) :
    (confirm_action env store req).outcome = .forbiddenOwner ∧
    (confirm_action env store req).store = store ∧
    (confirm_action env store req).execInvoked = false := by
  refine ⟨?_, ?_, ?_⟩ <;> simp [confirm_action, hfeat, hlook, hneq]

/-- C4 witness at a concrete wrong-user redemption. -/
theorem confirm_wrong_user_forbidden_witness :
    (confirm_action
        ⟨true, 10, USER_DB, fun _ _ => .ok []⟩
        [("CONFIRM_A", ⟨"user2", "halt_trading", [("book", "B1"), ("reason", "emergency halt now")], 0, 300⟩)]
        ⟨"user1", "CONFIRM_A", "yes"⟩).outcome = .forbiddenOwner ∧
    (confirm_action
        ⟨true, 10, USER_DB, fun _ _ => .ok []⟩
        [("CONFIRM_A", ⟨"user2", "halt_trading", [("book", "B1"), ("reason", "emergency halt now")], 0, 300⟩)]
        ⟨"user1", "CONFIRM_A", "yes"⟩).store =
      [("CONFIRM_A", ⟨"user2", "halt_trading", [("book", "B1"), ("reason", "emergency halt now")], 0, 300⟩)] ∧
    (confirm_action
        ⟨true, 10, USER_DB, fun _ _ => .ok []⟩
        [("CONFIRM_A", ⟨"user2", "halt_trading", [("book", "B1"), ("reason", "emergency halt now")], 0, 300⟩)]
        ⟨"user1", "CONFIRM_A", "yes"⟩).execInvoked = false :=
  confirm_wrong_user_forbidden _ _ _
    ⟨"user2", "halt_trading", [("book", "B1"), ("reason", "emergency halt now")], 0, 300⟩
    rfl rfl (by decide)

/-- C2: a pending confirmation past its expiry, redeemed by its owner,
yields Expired for any answer, and the entry is purged from the store. -/
theorem confirm_expired_purges (env : ConfirmEnv) (store : Store)
    (req : ConfirmRequest) (cd : ConfirmData)
    (hfeat : env.featureRiskChat = true)
    (hlook : store.lookupId req.confirm_id = some cd)
    (howner : cd.user_id = req.user_id)
    (hexp : cd.expires_at < env.now) :
    (confirm_action env store req).outcome = .expired ∧
    (confirm_action env store req).store = store.eraseId req.confirm_id ∧
    (confirm_action env store req).store.lookupId req.confirm_id = none ∧
    (confirm_action env store req).execInvoked = false := by
  refine ⟨?_, ?_, ?_, ?_⟩ <;>
    simp [confirm_action, hfeat, hlook, howner, hexp, Store.lookupId_eraseId]

/-- C2 witness: a concrete owner redemption with answer "no" at time 400
on an entry expiring at 300 is Expired and purged. -/
theorem confirm_expired_purges_witness :
    (confirm_action
        ⟨true, 400, USER_DB, fun _ _ => .ok []⟩
        [("CONFIRM_B", ⟨"user2", "halt_trading", [("book", "B1"), ("reason", "emergency halt now")], 0, 300⟩)]
        ⟨"user2", "CONFIRM_B", "no"⟩).outcome = .expired ∧
    (confirm_action
        ⟨true, 400, USER_DB, fun _ _ => .ok []⟩
        [("CONFIRM_B", ⟨"user2", "halt_trading", [("book", "B1"), ("reason", "emergency halt now")], 0, 300⟩)]
        ⟨"user2", "CONFIRM_B", "no"⟩).store =
      Store.eraseId
        [("CONFIRM_B", ⟨"user2", "halt_trading", [("book", "B1"), ("reason", "emergency halt now")], 0, 300⟩)]
        "CONFIRM_B" ∧
    (confirm_action
        ⟨true, 400, USER_DB, fun _ _ => .ok []⟩
        [("CONFIRM_B", ⟨"user2", "halt_trading", [("book", "B1"), ("reason", "emergency halt now")], 0, 300⟩)]
        ⟨"user2", "CONFIRM_B", "no"⟩).store.lookupId "CONFIRM_B" = none ∧
    (confirm_action
        ⟨true, 400, USER_DB, fun _ _ => .ok []⟩
        [("CONFIRM_B", ⟨"user2", "halt_trading", [("book", "B1"), ("reason", "emergency halt now")], 0, 300⟩)]
        ⟨"user2", "CONFIRM_B", "no"⟩).execInvoked = false :=
  confirm_expired_purges _ _ _
    ⟨"user2", "halt_trading", [("book", "B1"), ("reason", "emergency halt now")], 0, 300⟩
    rfl rfl rfl (by norm_num)

/-- C1: after a redemption completes as Cancelled (deny) or Executed
(approve), the entry is gone, so any later redemption of the same
confirm_id returns NotFound and never invokes the downstream executor. -/
theorem confirm_at_most_once (env env2 : ConfirmEnv) (store : Store)
    (req req2 : ConfirmRequest)
    (hid : req2.confirm_id = req.confirm_id)
    (hfeat2 : env2.featureRiskChat = true)
    (hdone : (confirm_action env store req).outcome = .cancelled ∨
             ∃ t m, (confirm_action env store req).outcome = .executed t m) :
    (confirm_action env2 (confirm_action env store req).store req2).outcome = .notFound ∧
    (confirm_action env2 (confirm_action env store req).store req2).execInvoked = false := by
  have hstore : (confirm_action env store req).store.lookupId req.confirm_id = none := by
    by_cases hf : env.featureRiskChat
    · cases hl : store.lookupId req.confirm_id with
      | none => simp [confirm_action, hf, hl] at hdone
      | some cd =>
        by_cases ho : cd.user_id = req.user_id
        · by_cases he : env.now > cd.expires_at
          · simp [confirm_action, hf, hl, ho, he] at hdone
          · by_cases ha : req.answer = "no"
            · simp [confirm_action, hf, hl, ho, he, ha, Store.lookupId_eraseId]
            · by_cases hr : can_execute env.roleDB req.user_id cd.tool_name
              · simp [confirm_action, hf, hl, ho, he, ha, hr, Store.lookupId_eraseId]
              · simp [confirm_action, hf, hl, ho, he, ha, hr] at hdone
        · simp [confirm_action, hf, hl, ho] at hdone
    · simp [confirm_action, hf] at hdone
  generalize hgen : (confirm_action env store req).store = s at hstore ⊢
  constructor <;> simp [confirm_action, hfeat2, hid, hstore]

/-- C1 witness: a concrete deny consumes the id; the immediate retry is
NotFound with no executor call. -/
theorem confirm_at_most_once_witness :
    (confirm_action
        ⟨true, 10, USER_DB, fun _ _ => .ok []⟩
        (confirm_action
          ⟨true, 10, USER_DB, fun _ _ => .ok []⟩
          [("CONFIRM_C", ⟨"user2", "halt_trading", [("book", "B1"), ("reason", "emergency halt now")], 0, 300⟩)]
          ⟨"user2", "CONFIRM_C", "no"⟩).store
        ⟨"user2", "CONFIRM_C", "yes"⟩).outcome = .notFound ∧
    (confirm_action
        ⟨true, 10, USER_DB, fun _ _ => .ok []⟩
        (confirm_action
          ⟨true, 10, USER_DB, fun _ _ => .ok []⟩
          [("CONFIRM_C", ⟨"user2", "halt_trading", [("book", "B1"), ("reason", "emergency halt now")], 0, 300⟩)]
          ⟨"user2", "CONFIRM_C", "no"⟩).store
        ⟨"user2", "CONFIRM_C", "yes"⟩).execInvoked = false :=
  confirm_at_most_once _ _ _ _ _ rfl rfl
    (Or.inl (by norm_num [confirm_action, Store.lookupId, List.lookup, can_execute]))

/-- C10 counterexample: at a concrete approve redemption whose raw tool
raises, `_execute_tool` swallows the exception into an error dict, so
`confirm_action` returns `executed` with no ticket (not an execution
error), the entry is purged rather than retained, and the retry on the
same confirm_id is NotFound — the claimed keep-entry-and-retry behavior
does not occur. -/
theorem confirm_executor_error_not_retained :
    (confirm_action
        ⟨true, 10, USER_DB, fun _ _ => .error "oms outage"⟩
        [("CONFIRM_F", ⟨"user2", "halt_trading", [("book", "B1"), ("reason", "emergency halt now")], 0, 300⟩)]
        ⟨"user2", "CONFIRM_F", "yes"⟩).outcome =
      .executed none "Action executed successfully. " ∧
    (confirm_action
        ⟨true, 10, USER_DB, fun _ _ => .error "oms outage"⟩
        [("CONFIRM_F", ⟨"user2", "halt_trading", [("book", "B1"), ("reason", "emergency halt now")], 0, 300⟩)]
        ⟨"user2", "CONFIRM_F", "yes"⟩).store.lookupId "CONFIRM_F" = none ∧
    (confirm_action
        ⟨true, 20, USER_DB, fun _ _ => .error "oms outage"⟩
        (confirm_action
          ⟨true, 10, USER_DB, fun _ _ => .error "oms outage"⟩
          [("CONFIRM_F", ⟨"user2", "halt_trading", [("book", "B1"), ("reason", "emergency halt now")], 0, 300⟩)]
          ⟨"user2", "CONFIRM_F", "yes"⟩).store
        ⟨"user2", "CONFIRM_F", "yes"⟩).outcome = .notFound := by
  refine ⟨?_, ?_, ?_⟩ <;> decide

/-- C10 amended: when the raw tool raises during an approve redemption,
`_execute_tool` catches the exception and returns an error dict, so
`confirm_action` takes the success path: it reports `executed` with no
ticket_id, purges the entry, and any later redemption of the same
confirm_id is NotFound (no retry is possible). -/
theorem confirm_executor_error_purges (env : ConfirmEnv) (store : Store)
    (req : ConfirmRequest) (cd : ConfirmData) (e : String)
    (hfeat : env.featureRiskChat = true)
    (hlook : store.lookupId req.confirm_id = some cd)
    (howner : cd.user_id = req.user_id)
    (hexp : ¬ cd.expires_at < env.now)
    (hans : req.answer ≠ "no")
    (hrbac : can_execute env.roleDB req.user_id cd.tool_name = true)
    (hexec : env.rawTool cd.tool_name cd.tool_args = .error e) :
    (confirm_action env store req).outcome =
      .executed none "Action executed successfully. " ∧
    (confirm_action env store req).store = store.eraseId req.confirm_id ∧
    (confirm_action env store req).store.lookupId req.confirm_id = none ∧
    ∀ env2 : ConfirmEnv, env2.featureRiskChat = true →
      (confirm_action env2 (confirm_action env store req).store req).outcome =
        .notFound := by
  have hres : execute_tool env.rawTool cd.tool_name cd.tool_args = [("error", e)] := by
    simp [execute_tool, hexec]
  have h1 : (confirm_action env store req).outcome =
      .executed none "Action executed successfully. " := by
    simp [confirm_action, hfeat, hlook, howner, hexp, hans, hrbac, hres, getArg,
      List.lookup]
  have h2 : (confirm_action env store req).store = store.eraseId req.confirm_id := by
    simp [confirm_action, hfeat, hlook, howner, hexp, hans, hrbac]
  have h3 : (confirm_action env store req).store.lookupId req.confirm_id = none := by
    rw [h2]
    exact Store.lookupId_eraseId store req.confirm_id
  refine ⟨h1, h2, h3, ?_⟩
  intro env2 hfeat2
  generalize hgen : (confirm_action env store req).store = s at h3 ⊢
  simp [confirm_action, hfeat2, h3]

/-- C10 amended witness: a concrete raising raw tool yields `executed`
with no ticket, a purged entry, and a NotFound retry. -/
theorem confirm_executor_error_purges_witness :
    (confirm_action
        ⟨true, 10, USER_DB, fun _ _ => .error "oms outage"⟩
        [("CONFIRM_D", ⟨"user2", "halt_trading", [("book", "B1"), ("reason", "emergency halt now")], 0, 300⟩)]
        ⟨"user2", "CONFIRM_D", "yes"⟩).outcome =
      .executed none "Action executed successfully. " ∧
    (confirm_action
        ⟨true, 10, USER_DB, fun _ _ => .error "oms outage"⟩
        [("CONFIRM_D", ⟨"user2", "halt_trading", [("book", "B1"), ("reason", "emergency halt now")], 0, 300⟩)]
        ⟨"user2", "CONFIRM_D", "yes"⟩).store =
      Store.eraseId
        [("CONFIRM_D", ⟨"user2", "halt_trading", [("book", "B1"), ("reason", "emergency halt now")], 0, 300⟩)]
        "CONFIRM_D" ∧
    (confirm_action
        ⟨true, 10, USER_DB, fun _ _ => .error "oms outage"⟩
        [("CONFIRM_D", ⟨"user2", "halt_trading", [("book", "B1"), ("reason", "emergency halt now")], 0, 300⟩)]
        ⟨"user2", "CONFIRM_D", "yes"⟩).store.lookupId "CONFIRM_D" = none ∧
    (confirm_action
        ⟨true, 20, USER_DB, fun _ _ => .ok [("ticket_id", "TCK-1")]⟩
        (confirm_action
          ⟨true, 10, USER_DB, fun _ _ => .error "oms outage"⟩
          [("CONFIRM_D", ⟨"user2", "halt_trading", [("book", "B1"), ("reason", "emergency halt now")], 0, 300⟩)]
          ⟨"user2", "CONFIRM_D", "yes"⟩).store
        ⟨"user2", "CONFIRM_D", "yes"⟩).outcome = .notFound := by
  have h := confirm_executor_error_purges
    ⟨true, 10, USER_DB, fun _ _ => .error "oms outage"⟩
    [("CONFIRM_D", ⟨"user2", "halt_trading", [("book", "B1"), ("reason", "emergency halt now")], 0, 300⟩)]
    ⟨"user2", "CONFIRM_D", "yes"⟩
    ⟨"user2", "halt_trading", [("book", "B1"), ("reason", "emergency halt now")], 0, 300⟩
    "oms outage" rfl rfl rfl (by norm_num) (by decide) (by decide) rfl
  exact ⟨h.1, h.2.1, h.2.2.1,
    h.2.2.2 ⟨true, 20, USER_DB, fun _ _ => .ok [("ticket_id", "TCK-1")]⟩ rfl⟩

/-- C3: if the requesting user's role is USER, or every proposed
halt_trading call fails guardrail validation, the chat loop responds
with no confirm_id and leaves the pending-confirmation store unchanged
(denial and validation failure create no entry and have no store effect). -/
theorem chat_no_confirmation_on_denial (db : List (String × String)) (now : ℚ)
    (fresh_id user_id : String) (store : Store) (tool_calls : List ToolCall)
    (h : get_role db user_id = "USER" ∨
         ∀ tc ∈ tool_calls, tc.name = "halt_trading" →
           (validate_halt_trading_args tc.args).1 = false) :
    (chat_process db now fresh_id user_id store tool_calls).confirm_id = none ∧
    (chat_process db now fresh_id user_id store tool_calls).store = store := by
  induction tool_calls with
  | nil => exact ⟨rfl, rfl⟩
  | cons tc rest ih =>
    by_cases hn : tc.name = "halt_trading"
    · cases h with
      | inl hrole =>
        have hce := can_execute_halt_of_role_user db user_id hrole
        constructor <;> simp [chat_process, hn, hce]
      | inr hval =>
        by_cases hce : can_execute db user_id "halt_trading"
        · have hv := hval tc (List.mem_cons_self tc rest) hn
          constructor <;> simp [chat_process, hn, hce, hv]
        · constructor <;> simp [chat_process, hn, hce]
    · have ih' := ih (h.imp id (fun hval tc' htc' => hval tc' (List.mem_cons_of_mem tc htc')))
      constructor <;> simp only [chat_process, if_neg hn] <;> [exact ih'.1; exact ih'.2]

/-- C3 witness: user1 (role USER) proposing a well-formed halt_trading
gets no confirm_id and the store stays empty. -/
theorem chat_no_confirmation_on_denial_witness :
    (chat_process USER_DB 0 "CONFIRM_E" "user1" []
        [⟨"halt_trading", [("book", "B1"), ("reason", "emergency halt now")]⟩]).confirm_id = none ∧
    (chat_process USER_DB 0 "CONFIRM_E" "user1" []
        [⟨"halt_trading", [("book", "B1"), ("reason", "emergency halt now")]⟩]).store = [] :=
  chat_no_confirmation_on_denial USER_DB 0 "CONFIRM_E" "user1" []
    [⟨"halt_trading", [("book", "B1"), ("reason", "emergency halt now")]⟩]
    (Or.inl (by decide))

/-- If an optional string is falsy, `getD ""` gives the empty string. -/
lemma getD_empty_of_not_truthy {o : Option String} (h : truthy o = false) :
    o.getD "" = "" := by
  cases o with
  | none => rfl
  | some s =>
    simp only [truthy, Bool.not_eq_false', beq_iff_eq] at h
    simp [h]

/-- C6: halt_trading argument validation succeeds exactly when some
target among desk/book/symbol is truthy and the reason's stripped length
is at least 10; in particular the three concrete cases of the spec. -/
theorem validate_halt_trading_args_correct (args : Args) :
    ((validate_halt_trading_args args).1 = true ↔
      ((truthy (getArg args "desk") || truthy (getArg args "book") ||
        truthy (getArg args "symbol")) = true ∧
       10 ≤ (strip ((getArg args "reason").getD "")).length)) ∧
    (validate_halt_trading_args [("book", "B1")]).1 = false ∧
    (validate_halt_trading_args [("book", "B1"), ("reason", "short")]).1 = false ∧
    (validate_halt_trading_args
      [("book", "B1"), ("reason", "valid enough reason text")]).1 = true := by
  refine ⟨?_, by decide, by decide, by decide⟩
  unfold validate_halt_trading_args
  by_cases h1 : (truthy (getArg args "desk") || truthy (getArg args "book") ||
      truthy (getArg args "symbol")) = true
  · rw [if_neg (by simp [h1])]
    by_cases h2 : truthy (getArg args "reason") = true
    · by_cases h3 : (strip ((getArg args "reason").getD "")).length < 10
      · rw [if_pos (Or.inr h3)]
        simp only [h1, true_and]
        exact ⟨fun hf => absurd hf (by simp), fun hge => absurd hge (by omega)⟩
      · rw [if_neg (by simp [h2]; omega)]
        simp only [h1, true_and]
        exact ⟨fun _ => by omega, fun _ => by trivial⟩
    · rw [if_pos (Or.inl (by simpa using h2))]
      have hempty := getD_empty_of_not_truthy (by simpa using h2)
      rw [hempty]
      simp only [h1, true_and]
      exact ⟨fun hf => absurd hf (by simp), fun hge => by simp [strip] at hge⟩
  · rw [if_pos (by simpa using h1)]
    exact ⟨fun hf => absurd hf (by simp), fun hand => absurd hand.1 h1⟩

/-! ### Company risk aggregator (`backend.py`, `compute_risk`) -/

/-- Scalar `np.clip(x, lo, hi)`: lower bound first, then upper. -/
def clip (x lo hi : ℚ) : ℚ := min hi (max lo x)

/-- The dynamic (sentiment, fundamentals) weight pair of `compute_risk`:
(0.6, 0.4) in the neutral case `|avg_sentiment| < 0.2`, else (0.7, 0.3). -/
def risk_weights (avg_sentiment : ℚ) : ℚ × ℚ :=
  if |avg_sentiment| < 0.2 then (0.6, 0.4) else (0.7, 0.3)

/-- Model of `backend.compute_risk` after signal acquisition: the pure arithmetic
combining the two sentiment signals and the two fundamentals. The I/O
adapters that produce the four inputs (with neutral defaults on failure)
are out of scope; both the symbol and the industry path feed this same
computation. -/
def compute_risk (sentiment_finnhub sentiment_nyt pe debt_eq : ℚ) : ℚ :=
  let avg_sentiment := (sentiment_finnhub + sentiment_nyt) / 2
  let w := risk_weights avg_sentiment
  let sentiment_risk := 1 - clip ((avg_sentiment + 1) / 2) 0 1
  let pe_risk := clip (pe / 40) 0 1
  let debt_risk := clip (debt_eq / 2) 0 1
  let fundamentals_risk := (pe_risk + debt_risk) / 2
  clip (w.1 * sentiment_risk + w.2 * fundamentals_risk) 0 1

lemma clip01_bounds (x : ℚ) : 0 ≤ clip x 0 1 ∧ clip x 0 1 ≤ 1 :=
  ⟨le_min (by norm_num) (le_max_left 0 x), min_le_left 1 _⟩

/-- C5: for every combination of adapter signal values — including the
all-failed neutral defaults — `compute_risk` lies in [0, 1]. -/
theorem compute_risk_in_unit_interval
    (sentiment_finnhub sentiment_nyt pe debt_eq : ℚ) :
    0 ≤ compute_risk sentiment_finnhub sentiment_nyt pe debt_eq ∧
    compute_risk sentiment_finnhub sentiment_nyt pe debt_eq ≤ 1 := by
  have h : compute_risk sentiment_finnhub sentiment_nyt pe debt_eq =
      clip ((risk_weights ((sentiment_finnhub + sentiment_nyt) / 2)).1 *
              (1 - clip (((sentiment_finnhub + sentiment_nyt) / 2 + 1) / 2) 0 1) +
            (risk_weights ((sentiment_finnhub + sentiment_nyt) / 2)).2 *
              ((clip (pe / 40) 0 1 + clip (debt_eq / 2) 0 1) / 2)) 0 1 := rfl
  rw [h]
  exact clip01_bounds _

/-- C7: weight selection in `compute_risk` is deterministic in the
averaged sentiment: strictly below 0.2 in magnitude gives (0.6, 0.4),
otherwise — including at exactly 0.2 — (0.7, 0.3). -/
theorem risk_weights_selection (avg_sentiment : ℚ) :
    (|avg_sentiment| < 0.2 → risk_weights avg_sentiment = (0.6, 0.4)) ∧
    (0.2 ≤ |avg_sentiment| → risk_weights avg_sentiment = (0.7, 0.3)) ∧
    risk_weights (0.2 : ℚ) = (0.7, 0.3) := by
  refine ⟨fun h => ?_, fun h => ?_, ?_⟩
  · rw [risk_weights, if_pos h]
  · rw [risk_weights, if_neg (not_lt.mpr h)]
  · rw [risk_weights, if_neg (by rw [abs_of_pos (by norm_num)]; exact lt_irrefl _)]

/-- C7 witness: weights at a neutral sentiment of 0 and at the 0.2
boundary. -/
theorem risk_weights_selection_witness :
    risk_weights (0 : ℚ) = (0.6, 0.4) ∧ risk_weights (0.2 : ℚ) = (0.7, 0.3) :=
  ⟨(risk_weights_selection 0).1 (by rw [abs_zero]; norm_num),
   (risk_weights_selection 0.2).2.2⟩

/-! ### Portfolio risk composite (`backend/routers/server.py`) -/

/-- The positive/negative performer counts passed to
`calculate_tech_risk` as `perf_split`. -/
structure PerfSplit where
  positive : ℕ
  negative : ℕ
deriving DecidableEq, Repr

/-- Diversification sub-score: `min(100, diversification * 15)`. -/
def diversification_score (diversification : ℕ) : ℚ :=
  min 100 ((diversification : ℚ) * 15)

/-- Volatility sub-score: `max(0, 100 - avg_vol * 100)`. -/
def volatility_score (avg_vol : ℚ) : ℚ := max 0 (100 - avg_vol * 100)

/-- Performance sub-score: share of appreciating companies, in percent. -/
def performance_score (num_companies : ℕ) (perf_split : PerfSplit) : ℚ :=
  ((perf_split.positive : ℚ) / max 1 (num_companies : ℚ)) * 100

/-- Exposure sub-score: `min(100, positive/max(1, negative) * 40)`. -/
def exposure_score (perf_split : PerfSplit) : ℚ :=
  min 100 (((perf_split.positive : ℚ) / max 1 ((perf_split.negative : ℚ))) * 40)

/-- The rating-threshold table of `calculate_tech_risk`. -/
def risk_rating (final_score : ℚ) : String :=
  if 80 ≤ final_score then "Low Risk"
  else if 60 ≤ final_score then "Moderate Risk"
  else if 40 ≤ final_score then "Elevated Risk"
  else "High Risk"

/-- Model of `server.calculate_tech_risk`: the 25/30/25/20-weighted composite
0-100 score and its rating. `total_mv` and `avg_perf` are accepted and
unused, exactly as in the source. -/
def calculate_tech_risk (total_mv avg_perf avg_vol : ℚ)
    (num_companies diversification : ℕ) (perf_split : PerfSplit) : ℚ × String :=
  let final_score :=
    diversification_score diversification * 0.25 +
    volatility_score avg_vol * 0.30 +
    performance_score num_companies perf_split * 0.25 +
    exposure_score perf_split * 0.20
  (final_score, risk_rating final_score)

/-- C8: the rating thresholds partition the score line with no gap and
no overlap — each score falls in exactly one bucket, characterized by the
four disjoint, covering intervals — and the sample scores 0, 39, 40, 59,
60, 79, 80, 100 (the spec's fractions of the 0-100 range) land in the
expected buckets, with ≥ 80 best ("Low Risk") and < 40 worst ("High
Risk"). -/
theorem risk_rating_partition (s : ℚ) :
    ((80 ≤ s ↔ risk_rating s = "Low Risk") ∧
     (60 ≤ s ∧ s < 80 ↔ risk_rating s = "Moderate Risk") ∧
     (40 ≤ s ∧ s < 60 ↔ risk_rating s = "Elevated Risk") ∧
     (s < 40 ↔ risk_rating s = "High Risk")) ∧
    (risk_rating 0 = "High Risk" ∧ risk_rating 39 = "High Risk" ∧
     risk_rating 40 = "Elevated Risk" ∧ risk_rating 59 = "Elevated Risk" ∧
     risk_rating 60 = "Moderate Risk" ∧ risk_rating 79 = "Moderate Risk" ∧
     risk_rating 80 = "Low Risk" ∧ risk_rating 100 = "Low Risk") := by
  constructor
  · by_cases h80 : 80 ≤ s
    · simp only [risk_rating, if_pos h80]
      refine ⟨⟨fun _ => trivial, fun _ => h80⟩, ?_, ?_, ?_⟩
      · exact ⟨fun hc => absurd h80 (not_le.mpr hc.2), fun hc => absurd hc (by decide)⟩
      · exact ⟨fun hc => absurd h80 (not_le.mpr (hc.2.trans (by norm_num))),
          fun hc => absurd hc (by decide)⟩
      · exact ⟨fun hc => absurd h80 (not_le.mpr (hc.trans_le (by norm_num))),
          fun hc => absurd hc (by decide)⟩
    · by_cases h60 : 60 ≤ s
      · simp only [risk_rating, if_neg h80, if_pos h60]
        refine ⟨?_, ⟨fun _ => trivial, fun _ => ⟨h60, not_le.mp h80⟩⟩, ?_, ?_⟩
        · exact ⟨fun hc => absurd hc h80, fun hc => absurd hc (by decide)⟩
        · exact ⟨fun hc => absurd h60 (not_le.mpr hc.2), fun hc => absurd hc (by decide)⟩
        · exact ⟨fun hc => absurd h60 (not_le.mpr (hc.trans_le (by norm_num))),
            fun hc => absurd hc (by decide)⟩
      · by_cases h40 : 40 ≤ s
        · simp only [risk_rating, if_neg h80, if_neg h60, if_pos h40]
          refine ⟨?_, ?_, ⟨fun _ => trivial, fun _ => ⟨h40, not_le.mp h60⟩⟩, ?_⟩
          · exact ⟨fun hc => absurd hc h80, fun hc => absurd hc (by decide)⟩
          · exact ⟨fun hc => absurd hc.1 h60, fun hc => absurd hc (by decide)⟩
          · exact ⟨fun hc => absurd h40 (not_le.mpr hc), fun hc => absurd hc (by decide)⟩
        · simp only [risk_rating, if_neg h80, if_neg h60, if_neg h40]
          refine ⟨?_, ?_, ?_, ⟨fun _ => trivial, fun _ => not_le.mp h40⟩⟩
          · exact ⟨fun hc => absurd hc h80, fun hc => absurd hc (by decide)⟩
          · exact ⟨fun hc => absurd hc.1 h60, fun hc => absurd hc (by decide)⟩
          · exact ⟨fun hc => absurd hc.1 h40, fun hc => absurd hc (by decide)⟩
  · refine ⟨?_, ?_, ?_, ?_, ?_, ?_, ?_, ?_⟩ <;> norm_num [risk_rating]

/-- C8 witness: the partition characterization applied at the boundary
score 80 and at 39. -/
theorem risk_rating_partition_witness :
    risk_rating 80 = "Low Risk" ∧ risk_rating 39 = "High Risk" :=
  ⟨((risk_rating_partition 80).1.1).mp (by norm_num),
   ((risk_rating_partition 39).1.2.2.2).mp (by norm_num)⟩

/-- C9 counterexample: the claim "higher avg_vol gives a strictly
smaller final score" fails once the volatility sub-score has saturated
at 0: with all other arguments fixed, avg_vol 1 and avg_vol 2 yield
equal final scores. -/
theorem volatility_not_strictly_decreasing :
    ¬ ((calculate_tech_risk 0 0 2 1 1 ⟨1, 0⟩).1 <
       (calculate_tech_risk 0 0 1 1 1 ⟨1, 0⟩).1) := by
  norm_num [calculate_tech_risk, diversification_score, volatility_score,
    performance_score, exposure_score]

/-- C9 amended: with identical remaining arguments, a higher realized
volatility never increases the final score, and strictly decreases it
as long as the lower volatility is below 1 (100%), where the volatility
sub-score `max(0, 100 - avg_vol*100)` has not yet saturated at 0. -/
theorem volatility_decreases_score (total_mv avg_perf avg_vol1 avg_vol2 : ℚ)
    (num_companies diversification : ℕ) (perf_split : PerfSplit)
    (h : avg_vol1 < avg_vol2) :
    (calculate_tech_risk total_mv avg_perf avg_vol2 num_companies
        diversification perf_split).1 ≤
      (calculate_tech_risk total_mv avg_perf avg_vol1 num_companies
        diversification perf_split).1 ∧
    (avg_vol1 < 1 →
      (calculate_tech_risk total_mv avg_perf avg_vol2 num_companies
          diversification perf_split).1 <
        (calculate_tech_risk total_mv avg_perf avg_vol1 num_companies
          diversification perf_split).1) := by
  have hfst : ∀ v : ℚ, (calculate_tech_risk total_mv avg_perf v num_companies
      diversification perf_split).1 =
      diversification_score diversification * 0.25 +
      volatility_score v * 0.30 +
      performance_score num_companies perf_split * 0.25 +
      exposure_score perf_split * 0.20 := fun v => rfl
  have hw : volatility_score avg_vol2 ≤ volatility_score avg_vol1 :=
    max_le_max le_rfl (by linarith)
  constructor
  · rw [hfst, hfst]
    linarith
  · intro h1
    have hpos : (0 : ℚ) < 100 - avg_vol1 * 100 := by linarith
    have hx1 : volatility_score avg_vol1 = 100 - avg_vol1 * 100 :=
      max_eq_right hpos.le
    have hs : volatility_score avg_vol2 < volatility_score avg_vol1 := by
      rcases le_or_lt (100 - avg_vol2 * 100) 0 with h2 | h2
      · rw [hx1, volatility_score, max_eq_left h2]
        exact hpos
      · rw [hx1, volatility_score, max_eq_right h2.le]
        linarith
    rw [hfst, hfst]
    linarith

/-- C9 amended witness: volatility 0.1 versus 0.2 at concrete remaining
arguments strictly lowers the score. -/
theorem volatility_decreases_score_witness :
    (calculate_tech_risk 0 0 (2/10) 4 2 ⟨3, 1⟩).1 ≤
      (calculate_tech_risk 0 0 (1/10) 4 2 ⟨3, 1⟩).1 ∧
    (calculate_tech_risk 0 0 (2/10) 4 2 ⟨3, 1⟩).1 <
      (calculate_tech_risk 0 0 (1/10) 4 2 ⟨3, 1⟩).1 := by
  have h := volatility_decreases_score 0 0 (1/10) (2/10) 4 2 ⟨3, 1⟩ (by norm_num)
  exact ⟨h.1, h.2 (by norm_num)⟩

end FinTech
